import Mathlib

/-!
Verification development for the org-metrics-dashboard aggregation engine.

The development shallowly embeds the two core layers of the repository:

* `schema.py` — runtime schema validation over dynamically typed (JSON-like)
  values.  Python values are modelled by `PyVal` (dictionaries as association
  lists with string keys, numbers as `Rat`, the distinct `int` / `float` /
  `bool` runtime tags kept, tuples kept separate from lists since `isinstance`
  and JSON serialization distinguish them).
* `aggregate.py` — the pure metric aggregators.  These consume records whose
  relevant fields are modelled by typed structures with `Option` fields
  (`none` = key absent, matching the `dict.get` defaulting in the source).

Machine floats are idealised as rationals; the Python `round(x, 1)` is modelled
as round-half-to-even at one decimal (`round1`).
-/

namespace OrgMetrics

/-- A dynamically typed (JSON-like) Python value.  Dictionary keys are
strings (the records handled by `schema.py` are parsed JSON objects). -/
inductive PyVal where
  | none
  | bool (b : Bool)
  | int (n : Int)
  | float (q : Rat)
  | str (s : String)
  | list (xs : List PyVal)
  | tuple (xs : List PyVal)
  | dict (kvs : List (String × PyVal))

/-- The runtime type tags that appear in the schema tables of `schema.py`:
`str`, `int`, `float`, `bool`, `NoneType`, `list`, `dict`. -/
inductive PyType where
  | tstr
  | tint
  | tfloat
  | tbool
  | tnone
  | tlist
  | tdict
deriving DecidableEq

/-- Python `type(value).__name__`, used in validation error messages. -/
def typeName : PyVal → String
  | .none => "NoneType"
  | .bool _ => "bool"
  | .int _ => "int"
  | .float _ => "float"
  | .str _ => "str"
  | .list _ => "list"
  | .tuple _ => "tuple"
  | .dict _ => "dict"

/-- Python `t.__name__` for a schema type tag. -/
def tyName : PyType → String
  | .tstr => "str"
  | .tint => "int"
  | .tfloat => "float"
  | .tbool => "bool"
  | .tnone => "NoneType"
  | .tlist => "list"
  | .tdict => "dict"

/-- Python `isinstance(value, t)`.  Note `bool` is a subclass of `int` in
Python, so a `bool` value satisfies an `int` check. -/
def isinst : PyVal → PyType → Bool
  | .str _, .tstr => true
  | .int _, .tint => true
  | .bool _, .tint => true
  | .bool _, .tbool => true
  | .float _, .tfloat => true
  | .none, .tnone => true
  | .list _, .tlist => true
  | .dict _, .tdict => true
  | _, _ => false

/-- Association-list lookup: `key in data` / `data[key]` for a dict. -/
def lookupField (kvs : List (String × PyVal)) (key : String) : Option PyVal :=
  match kvs with
  | [] => Option.none
  | (k, v) :: rest => if k = key then Option.some v else lookupField rest key

/-- Python `sep.join(strings)`. -/
def pyJoin (sep : String) : List String → String
  | [] => ""
  | [a] => a
  | a :: b :: rest => a ++ sep ++ pyJoin sep (b :: rest)

mutual
/-- A schema entry, as stored in the schema tables of `schema.py`:
either a single type / tuple of accepted types (`ty`), the bare `list`
marker (sequence whose contents are unchecked), or a nested schema dict. -/
inductive Schema where
  | ty (ts : List PyType)
  | listMarker
  | nested (fields : FieldList)
/-- The field-to-schema mapping of a (nested) schema dict, in declaration
order (Python dicts iterate in insertion order). -/
inductive FieldList where
  | nil
  | fcons (key : String) (sch : Schema) (rest : FieldList)
end

/-- Builds a `FieldList` from a plain list (used to write the schema tables
in the same layout as `schema.py`). -/
def ofList : List (String × Schema) → FieldList
  | [] => .nil
  | (k, s) :: rest => .fcons k s (ofList rest)

mutual
/-- The per-field check of `validate_dict_schema` (the body of its `for`
loop once the key has been found): nested-schema branch, bare-`list` branch,
and the type / type-tuple branch, each producing the exact error string of
the source. -/
def checkOne (path key : String) (sch : Schema) (value : PyVal) : List String :=
  match sch with
  | .nested fields =>
    match value with
    | .dict kvs => validateFields (path ++ "." ++ key) kvs fields
    | _ => [path ++ "." ++ key ++ ": expected dict, got " ++ typeName value]
  | .listMarker =>
    if isinst value .tlist then []
    else [path ++ "." ++ key ++ ": expected list, got " ++ typeName value]
  | .ty ts =>
    if ts.any (fun t => isinst value t) then []
    else [path ++ "." ++ key ++ ": expected " ++ pyJoin " or " (ts.map tyName)
          ++ ", got " ++ typeName value]
/-- The `for key, expected_type in schema.items()` loop of
`validate_dict_schema`: a missing key yields one error and the loop
continues; otherwise the value is checked; errors accumulate in order. -/
def validateFields (path : String) (kvs : List (String × PyVal)) :
    FieldList → List String
  | .nil => []
  | .fcons key sch rest =>
    (match lookupField kvs key with
     | Option.none => [path ++ "." ++ key ++ ": missing required field"]
     | Option.some v => checkOne path key sch v) ++ validateFields path kvs rest
end

/-- Models `validate_dict_schema(data, schema, path)`: returns
`(len(errors) == 0, errors)`; a non-dict input short-circuits with a single
`expected dict` error. -/
def validate_dict_schema (data : PyVal) (schema : FieldList) (path : String) :
    Bool × List String :=
  match data with
  | .dict kvs =>
    let errors := validateFields path kvs schema
    (errors.isEmpty, errors)
  | _ => (false, [path ++ ": expected dict, got " ++ typeName data])

/-- Table `RAW_REPO_REQUIRED_FIELDS` of `schema.py`: the fifteen required
top-level fields of a raw repo record. -/
def RAW_REPO_REQUIRED_FIELDS : FieldList := ofList [
  ("name", .ty [.tstr]),
  ("full_name", .ty [.tstr]),
  ("url", .ty [.tstr]),
  ("description", .ty [.tstr, .tnone]),
  ("language", .ty [.tstr, .tnone]),
  ("is_archived", .ty [.tbool]),
  ("is_fork", .ty [.tbool]),
  ("is_private", .ty [.tbool]),
  ("created_at", .ty [.tstr]),
  ("updated_at", .ty [.tstr]),
  ("pushed_at", .ty [.tstr]),
  ("stars", .ty [.tint]),
  ("forks", .ty [.tint]),
  ("health_score", .ty [.tint]),
  ("collected_at", .ty [.tstr])]

/-- Table `RAW_REPO_NESTED_SCHEMAS` of `schema.py`: the per-section schemas, each
checked only when the section key is present in the record. -/
def RAW_REPO_NESTED_SCHEMAS : List (String × FieldList) := [
  ("dora", ofList [
    ("deployment_freq", .ty [.tstr]),
    ("releases_per_month", .ty [.tint, .tfloat]),
    ("lead_time_hours", .ty [.tint, .tfloat]),
    ("lead_time_days", .ty [.tint, .tfloat]),
    ("mttr_hours", .ty [.tint, .tfloat]),
    ("cfr", .ty [.tint, .tfloat]),
    ("cfr_category", .ty [.tstr])]),
  ("flow", ofList [
    ("review_time", .ty [.tint, .tfloat]),
    ("cycle_time", .ty [.tint, .tfloat]),
    ("wip", .ty [.tint]),
    ("throughput", .ty [.tint])]),
  ("pr", ofList [
    ("total", .ty [.tint]),
    ("open", .ty [.tint]),
    ("merged_30d", .ty [.tint]),
    ("throughput", .ty [.tint]),
    ("wip", .ty [.tint]),
    ("stale", .ty [.tint]),
    ("lead_time_hours", .ty [.tint, .tfloat]),
    ("lead_time_days", .ty [.tint, .tfloat]),
    ("review_time_hours", .ty [.tint, .tfloat]),
    ("cycle_time_hours", .ty [.tint, .tfloat]),
    ("merge_rate", .ty [.tint, .tfloat]),
    ("truncated", .ty [.tbool])]),
  ("issues", ofList [
    ("total", .ty [.tint]),
    ("open", .ty [.tint]),
    ("closed_30d", .ty [.tint]),
    ("mttr_hours", .ty [.tint, .tfloat]),
    ("bugs", .ty [.tint]),
    ("critical", .ty [.tint]),
    ("security", .ty [.tint]),
    ("stale", .ty [.tint]),
    ("truncated", .ty [.tbool])]),
  ("ci", ofList [
    ("has_ci", .ty [.tbool]),
    ("workflows", .ty [.tint]),
    ("runs_30d", .ty [.tint]),
    ("success_rate", .ty [.tint, .tfloat]),
    ("failure_rate", .ty [.tint, .tfloat]),
    ("duration_mins", .ty [.tint, .tfloat]),
    ("ci_failure_rate", .ty [.tint, .tfloat]),
    ("truncated", .ty [.tbool])]),
  ("security", ofList [
    ("score", .ty [.tint]),
    ("critical", .ty [.tint]),
    ("high", .ty [.tint]),
    ("medium", .ty [.tint]),
    ("low", .ty [.tint]),
    ("total_vulns", .ty [.tint]),
    ("secrets", .ty [.tint]),
    ("dependency_alerts", .ty [.tint]),
    ("code_alerts", .ty [.tint]),
    ("security_policy", .ty [.tbool]),
    ("branch_protection", .ty [.tbool]),
    ("dependabot", .ty [.tbool]),
    ("secret_scanning", .ty [.tbool]),
    ("code_scanning", .ty [.tbool]),
    ("gate_pass", .ty [.tbool]),
    ("license", .ty [.tstr, .tnone]),
    ("security_mttr_hours", .ty [.tint, .tfloat, .tnone]),
    ("dependabot_truncated", .ty [.tbool]),
    ("code_scanning_truncated", .ty [.tbool]),
    ("secret_scanning_truncated", .ty [.tbool]),
    ("available_dependabot", .ty [.tbool]),
    ("available_code_scanning", .ty [.tbool]),
    ("available_secret_scanning", .ty [.tbool]),
    ("errors", .listMarker)]),
  ("commits", ofList [
    ("count_30d", .ty [.tint]),
    ("authors", .ty [.tint]),
    ("top", .listMarker)]),
  ("risk", ofList [
    ("score", .ty [.tint]),
    ("level", .ty [.tstr]),
    ("factors", .listMarker)])]

/-- The `if section in data: ... validate_dict_schema(data[section], ...)`
step of `validate_raw_repo` for one nested section. -/
def sectionErrs (kvs : List (String × PyVal)) (sect : String × FieldList) :
    List String :=
  match lookupField kvs sect.1 with
  | Option.none => []
  | Option.some v => (validate_dict_schema v sect.2 ("repo." ++ sect.1)).2

/-- Models `validate_raw_repo(data)`: top-level required fields, then each nested
section that is present, errors concatenated in order; returns
`(len(errors) == 0, errors)`. -/
def validate_raw_repo (data : PyVal) : Bool × List String :=
  let base := (validate_dict_schema data RAW_REPO_REQUIRED_FIELDS "repo").2
  let errors := base ++
    (match data with
     | .dict kvs => RAW_REPO_NESTED_SCHEMAS.flatMap (sectionErrs kvs)
     | _ => [])
  (errors.isEmpty, errors)

/-- An ASCII single-quote character, used in the `assert_raw_repo` message
(which quotes the repository name). -/
def squote : String := String.singleton (Char.ofNat 39)

/-- The `ValueError` message raised by `assert_raw_repo`:
the failure header naming the repository (single-quoted) followed by the
collected error strings joined with a newline and two spaces. -/
def rawRepoFailMsg (repo_name : String) (errors : List String) : String :=
  "Schema validation failed for repo " ++ squote ++ repo_name ++ squote ++
    ":\n  " ++ pyJoin "\n  " errors

/-- Models `assert_raw_repo(data, repo_name)`: returns normally when the record
validates, otherwise raises (modelled as `Except.error`) with the message
containing the label and every collected error. -/
def assert_raw_repo (data : PyVal) (repo_name : String) : Except String Unit :=
  let res := validate_raw_repo data
  if res.1 then Except.ok ()
  else Except.error (rawRepoFailMsg repo_name res.2)

mutual
/-- The effect on a (serializable) Python value of dumping it to JSON and
parsing it back: tuples come back as lists, everything else keeps its
structure.  (The model assumes string dictionary keys and representable
numbers, which is what JSON serializability requires.) -/
def jsonRT : PyVal → PyVal
  | .none => .none
  | .bool b => .bool b
  | .int n => .int n
  | .float q => .float q
  | .str s => .str s
  | .list xs => .list (jsonRTList xs)
  | .tuple xs => .list (jsonRTList xs)
  | .dict kvs => .dict (jsonRTKvs kvs)
/-- JSON round trip mapped over the elements of an array. -/
def jsonRTList : List PyVal → List PyVal
  | [] => []
  | x :: xs => jsonRT x :: jsonRTList xs
/-- JSON round trip mapped over the entries of an object. -/
def jsonRTKvs : List (String × PyVal) → List (String × PyVal)
  | [] => []
  | (k, v) :: rest => (k, jsonRT v) :: jsonRTKvs rest
end

/-- One file found in the raw-data directory by `load_repos`: its name and
the result of `json.load` (`none` when the file is unparseable, in which
case the source logs a warning and skips it). -/
structure RawFile where
  fname : String
  parsed : Option PyVal

/-- Python `f.name.startswith("_")`: does the filename begin with an
underscore? -/
def startsWithUnderscore (s : String) : Bool :=
  match s.data with
  | [] => false
  | c :: _ => c = '_'

/-- Function `load_repos()` of `aggregate.py`: iterates the raw-data files, skips
names starting with an underscore, skips unparseable files (warning logged),
and returns every successfully parsed record.  No schema validation is
performed here. -/
def load_repos (files : List RawFile) : List PyVal :=
  (files.filter (fun f => !startsWithUnderscore f.fname)).filterMap
    (fun f => f.parsed)

/-! ### Numeric utilities (`aggregate.py`) -/

/-- Round half to even to an integer (the tie-breaking rule of the Python
`round`, with machine floats idealised as rationals). -/
def rhe (q : Rat) : Int :=
  if q - ⌊q⌋ < 1 / 2 then ⌊q⌋
  else if 1 / 2 < q - ⌊q⌋ then ⌊q⌋ + 1
  else if ⌊q⌋ % 2 = 0 then ⌊q⌋ else ⌊q⌋ + 1

/-- Python `round(x, 1)`: round half to even at one decimal place. -/
def round1 (q : Rat) : Rat := (rhe (q * 10) : Rat) / 10

/-- Function `safe_avg(values)` of `aggregate.py`: ignores `None` and non-positive
entries, averages the survivors, rounds to one decimal, and returns `none`
when no value survives the filter. -/
def safe_avg (values : List (Option Rat)) : Option Rat :=
  let valid := (values.filterMap id).filter (fun v => decide (0 < v))
  if valid.isEmpty then Option.none
  else Option.some (round1 (valid.sum / (valid.length : Rat)))

/-! ### Typed raw-record model for the aggregators

The aggregators read records through `dict.get` with defaults; each field a
aggregators touch is modelled as an `Option` field (`none` = key
absent, so the `get` default applies).  A `none` section plays the role of
an absent (or empty, hence falsy) section dict. -/

/-- The `dora` section fields read by `calc_dora` / `build_repo_table`.
`cfr` is doubly optional: `none` = key absent (`get` default `0` applies),
`some none` = key present with a JSON `null` (skipped by the `cfr is not
None` guard). -/
structure DoraData where
  deployment_freq : Option String := Option.none
  releases_per_month : Option Rat := Option.none
  lead_time_hours : Option Rat := Option.none
  mttr_hours : Option Rat := Option.none
  cfr : Option (Option Rat) := Option.none

/-- The `pr` section fields read by `calc_flow` / `build_repo_table`. -/
structure PrData where
  review_time_hours : Option Rat := Option.none
  cycle_time_hours : Option Rat := Option.none
  wip : Option Int := Option.none
  throughput : Option Int := Option.none
  open_count : Option Int := Option.none

/-- The `issues` section fields read by `calc_issues`. -/
structure IssuesData where
  open_count : Option Int := Option.none
  closed_30d : Option Int := Option.none
  bugs : Option Int := Option.none

/-- The `ci` section fields read by `calc_ci`. -/
structure CiData where
  has_ci : Option Bool := Option.none
  success_rate : Option Rat := Option.none
  runs_30d : Option Int := Option.none
  duration_mins : Option Rat := Option.none

/-- The `security` section fields read by `calc_security`,
`calc_governance` and `build_repo_table`. -/
structure SecurityData where
  critical : Option Int := Option.none
  high : Option Int := Option.none
  medium : Option Int := Option.none
  low : Option Int := Option.none
  secrets : Option Int := Option.none
  dependency_alerts : Option Int := Option.none
  code_alerts : Option Int := Option.none
  branch_protection : Option Bool := Option.none
  dependabot : Option Bool := Option.none
  secret_scanning : Option Bool := Option.none
  code_scanning : Option Bool := Option.none
  security_policy : Option Bool := Option.none
  license : Option String := Option.none
  gate_pass : Option Bool := Option.none
  security_mttr_hours : Option Rat := Option.none

/-- A raw repository record as seen by the aggregators. -/
structure Repo where
  name : String := ""
  is_archived : Bool := false
  is_fork : Bool := false
  dora : Option DoraData := Option.none
  pr : Option PrData := Option.none
  issues : Option IssuesData := Option.none
  ci : Option CiData := Option.none
  security : Option SecurityData := Option.none

/-- Lookup `r.get("pr", {})`. -/
def prOf (r : Repo) : PrData := r.pr.getD {}

/-- Lookup `r.get("issues", {})`. -/
def issuesOf (r : Repo) : IssuesData := r.issues.getD {}

/-- Lookup `r.get("ci", {})`. -/
def ciOf (r : Repo) : CiData := r.ci.getD {}

/-- Lookup `r.get("security", {})`. -/
def secOf (r : Repo) : SecurityData := r.security.getD {}

/-- The active (non-archived) subset every aggregator starts from. -/
def activeRepos (repos : List Repo) : List Repo :=
  repos.filter (fun r => !r.is_archived)

/-! ### `calc_dora` -/

/-- One `{"value": ..., "category": ..., "unit": ...}` block of the DORA
summary. -/
structure MetricBlock where
  value : Rat
  category : String
  unit : String

/-- The deployment-frequency bucketing expression of `calc_dora`. -/
def df_category (v : Rat) : String :=
  if 8 ≤ v then "Elite" else if 4 ≤ v then "High"
  else if 1 ≤ v then "Medium" else "Low"

/-- The lead-time bucketing expression of `calc_dora`. -/
def lt_category (v : Rat) : String :=
  if v < 24 then "Elite" else if v < 168 then "High"
  else if v < 720 then "Medium" else "Low"

/-- The MTTR bucketing expression of `calc_dora`. -/
def mttr_category (v : Rat) : String :=
  if v < 1 then "Elite" else if v < 24 then "High"
  else if v < 168 then "Medium" else "Low"

/-- The CI-failure-rate bucketing expression of `calc_dora`. -/
def cfr_category (v : Rat) : String :=
  if v < 5 then "Elite" else if v < 15 then "High"
  else if v < 30 then "Medium" else "Low"

/-- The `cats = {"Elite": 4, "High": 3, "Medium": 2, "Low": 1}` lookup of
`calc_dora` (every category fed to it is one of the four keys). -/
def catWeight (s : String) : Rat :=
  if s = "Elite" then 4 else if s = "High" then 3
  else if s = "Medium" then 2 else 1

/-- The overall re-bucketing expression of `calc_dora`. -/
def overall_category (w : Rat) : String :=
  if 7 / 2 ≤ w then "Elite" else if 5 / 2 ≤ w then "High"
  else if 3 / 2 ≤ w then "Medium" else "Low"

/-- The org-wide DORA summary returned by `calc_dora`. -/
structure DoraSummary where
  deployment_frequency : MetricBlock
  lead_time : MetricBlock
  mttr : MetricBlock
  ci_failure_rate : MetricBlock
  overall : String

/-- Lookup `dora.get("cfr", 0)` with the surrounding `r.get("dora", {})`: absent
section or absent key defaults to `0`; a present `null` gives `none`
(skipped by the `is not None` guard in `calc_dora`). -/
def cfrOf (r : Repo) : Option Rat :=
  match r.dora with
  | Option.none => Option.some 0
  | Option.some d =>
    match d.cfr with
    | Option.none => Option.some 0
    | Option.some v => v

/-- Function `calc_dora(repos)` of `aggregate.py`. -/
def calc_dora (repos : List Repo) : DoraSummary :=
  let active := repos.filter (fun r => !r.is_archived)
  let rpm_values := ((active.filter (fun r => r.dora.isSome)).filterMap
      (fun r => r.dora.bind (fun d => d.releases_per_month))).filter
      (fun v => decide (0 < v))
  let avg_rpm := (safe_avg (rpm_values.map Option.some)).getD 0
  let df_cat := df_category avg_rpm
  let lt_values := ((active.filter (fun r => r.dora.isSome)).filterMap
      (fun r => r.dora.bind (fun d => d.lead_time_hours))).filter
      (fun v => decide (0 < v))
  let avg_lt := (safe_avg (lt_values.map Option.some)).getD 0
  let lt_cat := lt_category avg_lt
  let mttr_values := ((active.filter (fun r => r.dora.isSome)).filterMap
      (fun r => r.dora.bind (fun d => d.mttr_hours))).filter
      (fun v => decide (0 < v))
  let avg_mttr := (safe_avg (mttr_values.map Option.some)).getD 0
  let mttr_cat := mttr_category avg_mttr
  let cfr_values := active.filterMap cfrOf
  let avg_cfr := (safe_avg (cfr_values.map Option.some)).getD 0
  let cfr_cat := cfr_category avg_cfr
  let overall := round1 ((catWeight df_cat + catWeight lt_cat +
      catWeight mttr_cat + catWeight cfr_cat) / 4)
  { deployment_frequency := ⟨avg_rpm, df_cat, "releases/month"⟩
    lead_time := ⟨avg_lt, lt_cat, "hours"⟩
    mttr := ⟨avg_mttr, mttr_cat, "hours"⟩
    ci_failure_rate := ⟨avg_cfr, cfr_cat, "%"⟩
    overall := overall_category overall }

/-! ### `calc_flow`, `calc_ci`, `calc_security`, `calc_issues` -/

/-- The org-wide flow summary returned by `calc_flow`. -/
structure FlowSummary where
  review_time_avg : Option Rat
  cycle_time_avg : Option Rat
  total_wip : Int
  total_throughput : Int

/-- Function `calc_flow(repos)` of `aggregate.py`.  The `if review_time and
review_time > 0` guards are Python truthiness followed by a comparison,
modelled as `v ≠ 0 ∧ 0 < v`. -/
def calc_flow (repos : List Repo) : FlowSummary :=
  let active := repos.filter (fun r => !r.is_archived)
  let review_times := (active.map (fun r => (prOf r).review_time_hours.getD 0)).filter
      (fun v => decide (v ≠ 0) && decide (0 < v))
  let cycle_times := (active.map (fun r => (prOf r).cycle_time_hours.getD 0)).filter
      (fun v => decide (v ≠ 0) && decide (0 < v))
  { review_time_avg := safe_avg (review_times.map Option.some)
    cycle_time_avg := safe_avg (cycle_times.map Option.some)
    total_wip := (active.map (fun r => (prOf r).wip.getD 0)).sum
    total_throughput := (active.map (fun r => (prOf r).throughput.getD 0)).sum }

/-- The org-wide CI summary returned by `calc_ci`. -/
structure CiSummary where
  adoption : Rat
  success_rate : Rat
  failure_rate : Option Rat
  avg_duration : Option Rat
  total_runs : Int

/-- Function `calc_ci(repos)` of `aggregate.py`.  After `avg_sr` has been coerced
from `None` to `0`, the `if avg_sr is not None else None` guard on
`failure_rate` can only take its first branch, so `failure_rate` is always
`some` here. -/
def calc_ci (repos : List Repo) : CiSummary :=
  let active := repos.filter (fun r => !r.is_archived)
  let with_ci := active.filter (fun r => (ciOf r).has_ci.getD false)
  let success_rates := (with_ci.map (fun r => (ciOf r).success_rate.getD 0)).filter
      (fun v => decide (v ≠ 0) && decide (0 < v))
  let durations := (with_ci.map (fun r => (ciOf r).duration_mins.getD 0)).filter
      (fun v => decide (v ≠ 0) && decide (0 < v))
  let avg_sr := (safe_avg (success_rates.map Option.some)).getD 0
  let adoption := if active.isEmpty then 0
      else round1 ((with_ci.length : Rat) / (active.length : Rat) * 100)
  { adoption := adoption
    success_rate := avg_sr
    failure_rate := Option.some (round1 (100 - avg_sr))
    avg_duration := safe_avg (durations.map Option.some)
    total_runs := (with_ci.map (fun r => (ciOf r).runs_30d.getD 0)).sum }

/-- The org-wide security summary returned by `calc_security`. -/
structure SecuritySummary where
  critical_vulns : Int
  high_vulns : Int
  medium_vulns : Int
  low_vulns : Int
  total_vulns : Int
  vuln_trend : Option String
  security_mttr : Option Rat
  sla_compliance : Rat
  secrets_exposed : Int
  dependency_risk : Int
  gate_pass_rate : Rat
  code_issues : Int
  branch_protection : Rat
  dependabot_adoption : Rat
  secret_scanning : Rat
  code_scanning : Rat
  security_policy : Rat
  license_compliance : Rat

/-- Python truthiness of `sec.get("license")`: a present, non-empty license
string. -/
def licenseTruthy (s : Option String) : Bool :=
  match s with
  | Option.none => false
  | Option.some v => v ≠ ""

/-- Function `calc_security(repos)` of `aggregate.py`.  Here `prevTotal` stands for the
result of `load_previous_snapshot()` reduced to the field
`security.total_vulns` of the prior snapshot: `none` when no prior snapshot exists (or it is
falsy/unreadable), `some t` when one does (a snapshot missing the field
contributes its `get` default `0`). -/
def calc_security (repos : List Repo) (prevTotal : Option Int) :
    SecuritySummary :=
  let active := repos.filter (fun r => !r.is_archived)
  let total : Int := if active.length = 0 then 1 else (active.length : Int)
  let crit := (active.map (fun r => (secOf r).critical.getD 0)).sum
  let high := (active.map (fun r => (secOf r).high.getD 0)).sum
  let med := (active.map (fun r => (secOf r).medium.getD 0)).sum
  let low := (active.map (fun r => (secOf r).low.getD 0)).sum
  let secrets := (active.map (fun r => (secOf r).secrets.getD 0)).sum
  let dep_alerts := (active.map (fun r => (secOf r).dependency_alerts.getD 0)).sum
  let code_alerts := (active.map (fun r => (secOf r).code_alerts.getD 0)).sum
  let branch_prot := (active.countP (fun r => (secOf r).branch_protection.getD false) : Int)
  let dependabot := (active.countP (fun r => (secOf r).dependabot.getD false) : Int)
  let secret_scan := (active.countP (fun r => (secOf r).secret_scanning.getD false) : Int)
  let code_scan := (active.countP (fun r => (secOf r).code_scanning.getD false) : Int)
  let sec_policy := (active.countP (fun r => (secOf r).security_policy.getD false) : Int)
  let license_ok := (active.countP (fun r => licenseTruthy (secOf r).license) : Int)
  let gate_pass_count := (active.countP (fun r => (secOf r).gate_pass.getD false) : Int)
  let mttr_values := active.filterMap (fun r => (secOf r).security_mttr_hours)
  let total_vulns := crit + high + med + low
  let vuln_trend :=
    match prevTotal with
    | Option.none => (Option.none : Option String)
    | Option.some prev_total =>
      let delta := total_vulns - prev_total
      if delta < 0 then Option.some "Improving"
      else if 0 < delta then Option.some "Worsening"
      else Option.some "Stable"
  let sla_pass := (active.countP (fun r => (secOf r).critical.getD 0 = 0) : Int)
  let sla_rate := if total ≠ 0 then round1 ((sla_pass : Rat) / (total : Rat) * 100) else 0
  let gate_rate := if total ≠ 0 then round1 ((gate_pass_count : Rat) / (total : Rat) * 100) else 0
  { critical_vulns := crit
    high_vulns := high
    medium_vulns := med
    low_vulns := low
    total_vulns := total_vulns
    vuln_trend := vuln_trend
    security_mttr := safe_avg (mttr_values.map Option.some)
    sla_compliance := sla_rate
    secrets_exposed := secrets
    dependency_risk := dep_alerts
    gate_pass_rate := gate_rate
    code_issues := code_alerts
    branch_protection := round1 ((branch_prot : Rat) / (total : Rat) * 100)
    dependabot_adoption := round1 ((dependabot : Rat) / (total : Rat) * 100)
    secret_scanning := round1 ((secret_scan : Rat) / (total : Rat) * 100)
    code_scanning := round1 ((code_scan : Rat) / (total : Rat) * 100)
    security_policy := round1 ((sec_policy : Rat) / (total : Rat) * 100)
    license_compliance := round1 ((license_ok : Rat) / (total : Rat) * 100) }

/-- The org-wide issues summary returned by `calc_issues`. -/
structure IssuesSummary where
  open_count : Int
  closed_30d : Int
  bug_count : Int

/-- Function `calc_issues(repos)` of `aggregate.py`. -/
def calc_issues (repos : List Repo) : IssuesSummary :=
  let active := repos.filter (fun r => !r.is_archived)
  { open_count := (active.map (fun r => (issuesOf r).open_count.getD 0)).sum
    closed_30d := (active.map (fun r => (issuesOf r).closed_30d.getD 0)).sum
    bug_count := (active.map (fun r => (issuesOf r).bugs.getD 0)).sum }

/-! ### `calc_governance` and the repo-table risk tier -/

/-- The per-repository risk classification inside the loop of `calc_governance`.
Note the default for a missing `gate_pass` here is `True`
(`sec.get("gate_pass", True)`). -/
def govRiskLevel (r : Repo) : String :=
  let sec := secOf r
  let crit := sec.critical.getD 0
  let high := sec.high.getD 0
  let secrets := sec.secrets.getD 0
  let gate := sec.gate_pass.getD true
  if 0 < crit ∨ 0 < secrets ∨ ¬gate then "Critical"
  else if 0 < high then "High"
  else if 0 < sec.medium.getD 0 then "Medium"
  else "Low"

/-- The per-repository risk derivation of `build_repo_table` (lines
457-469 of `aggregate.py`).  Note the default for a missing `gate_pass`
here is `False` (`sec.get("gate_pass", False)`). -/
def tableRiskLevel (r : Repo) : String :=
  let sec := secOf r
  let crit := sec.critical.getD 0
  let high := sec.high.getD 0
  let secrets := sec.secrets.getD 0
  let gate := sec.gate_pass.getD false
  if 0 < crit ∨ 0 < secrets ∨ ¬gate then "Critical"
  else if 0 < high then "High"
  else if 0 < sec.medium.getD 0 then "Medium"
  else "Low"

/-- The governance summary returned by `calc_governance`. -/
structure GovSummary where
  total_repos : Nat
  scanned_repos : Nat
  scan_coverage : Rat
  archived_repos : Nat
  forked_repos : Nat
  risk_critical : Nat
  risk_high : Nat
  risk_medium : Nat
  risk_low : Nat

/-- Function `calc_governance(repos)` of `aggregate.py`: inventory counts over the
full collection, risk tiers over the active subset. -/
def calc_governance (repos : List Repo) : GovSummary :=
  let total := repos.length
  let archived := (repos.filter (fun r => r.is_archived)).length
  let forked := (repos.filter (fun r => r.is_fork)).length
  let active := repos.filter (fun r => !r.is_archived)
  { total_repos := total
    scanned_repos := active.length
    scan_coverage := if total ≠ 0
      then round1 ((active.length : Rat) / (total : Rat) * 100) else 0
    archived_repos := archived
    forked_repos := forked
    risk_critical := active.countP (fun r => govRiskLevel r = "Critical")
    risk_high := active.countP (fun r => govRiskLevel r = "High")
    risk_medium := active.countP (fun r => govRiskLevel r = "Medium")
    risk_low := active.countP (fun r => govRiskLevel r = "Low") }

/-! ### Theorems -/

lemma filter_active_idem (repos : List Repo) :
    (repos.filter (fun r => !r.is_archived)).filter (fun r => !r.is_archived) =
      repos.filter (fun r => !r.is_archived) := by
  simp [List.filter_filter]

/-- C1: contrary to the claim, `load_repos` performs no schema validation:
a parseable record that fails `validate_raw_repo` (here the empty JSON
object) is returned to the aggregators rather than skipped.  (Validation
via `assert_raw_repo` happens only in the collector, before writing.) -/
theorem load_repos_no_input_validation :
    load_repos [⟨"invalid.json", Option.some (PyVal.dict [])⟩] = [PyVal.dict []] ∧
    (validate_raw_repo (PyVal.dict [])).1 = false ∧
    (validate_raw_repo (PyVal.dict [])).2 ≠ [] :=
  ⟨rfl, rfl, by simp [validate_raw_repo, validate_dict_schema,
    RAW_REPO_REQUIRED_FIELDS, ofList, validateFields, lookupField]⟩

/-- The input values of `safe_avg` that are non-`None` and strictly
positive, extracted in one pass (the surviving values as the claim
describes them). -/
def posElems (values : List (Option Rat)) : List Rat :=
  values.filterMap (fun v =>
    match v with
    | Option.none => Option.none
    | Option.some x => if 0 < x then Option.some x else Option.none)

lemma safe_avg_filter_eq_posElems (values : List (Option Rat)) :
    (values.filterMap id).filter (fun v => decide (0 < v)) = posElems values := by
  induction values with
  | nil => rfl
  | cons v rest ih =>
    cases v with
    | none => simpa [posElems, List.filterMap_cons] using ih
    | some x =>
      by_cases hx : 0 < x <;>
        simp_all [posElems, List.filterMap_cons, List.filter_cons]

/-- C2: `safe_avg` returns `none` exactly when no input value is non-null
and strictly positive (in particular on `[]` and `[0, 0]`), and otherwise
returns the arithmetic mean of the surviving values rounded to one
decimal place. -/
theorem safe_avg_mean_of_positives :
    safe_avg [] = Option.none ∧
    safe_avg [Option.some 0, Option.some 0] = Option.none ∧
    ∀ values : List (Option Rat),
      (safe_avg values = Option.none ↔ posElems values = []) ∧
      (posElems values ≠ [] →
        safe_avg values =
          Option.some (round1 ((posElems values).sum / ((posElems values).length : Rat)))) := by
  refine ⟨rfl, rfl, fun values => ?_⟩
  rw [safe_avg, safe_avg_filter_eq_posElems]
  constructor
  · by_cases h : posElems values = [] <;> simp [h, List.isEmpty_iff]
  · intro h
    simp [List.isEmpty_iff, h]

/-- Witness for C2 at a concrete input: the mean of `[2, 4]` is `3`. -/
theorem safe_avg_mean_of_positives_witness :
    safe_avg [Option.some 2, Option.some 4] = Option.some 3 := by
  have h := (safe_avg_mean_of_positives.2.2 [Option.some 2, Option.some 4]).2
    (by norm_num [posElems, List.filterMap_cons]
        exact List.cons_ne_nil _ _)
  rw [h]
  norm_num [posElems, List.filterMap_cons, round1, rhe]

/-- A record with no `security` section, on which the two risk-tier
derivations disagree. -/
def noSecRepo : Repo := { name := "no-sec" }

/-- C3 counterexample: when `gate_pass` (here the whole `security`
section) is absent, the risk derivation of `build_repo_table` defaults the gate
to fail and yields "Critical", while `calc_governance` defaults it to pass
and counts the repository as "Low". -/
theorem risk_tier_default_divergence :
    tableRiskLevel noSecRepo = "Critical" ∧
    govRiskLevel noSecRepo = "Low" ∧
    (calc_governance [noSecRepo]).risk_critical = 0 ∧
    (calc_governance [noSecRepo]).risk_low = 1 :=
  ⟨rfl, rfl, rfl, rfl⟩

/-- C3 amended: the repo-table risk tier and the governance risk tier
coincide on every record whose `security` section supplies `gate_pass`
(the two sites differ only in the default used when that key is absent:
`True` in `calc_governance`, `False` in `build_repo_table`). -/
theorem risk_tier_agreement (r : Repo) (s : SecurityData) (b : Bool)
    (h1 : r.security = Option.some s) (h2 : s.gate_pass = Option.some b) :
    tableRiskLevel r = govRiskLevel r := by
  simp [tableRiskLevel, govRiskLevel, secOf, h1, h2]

/-- A record whose `security` section supplies `gate_pass`. -/
def gatedRepo : Repo :=
  { name := "gated", security := Option.some { gate_pass := Option.some false } }

/-- Witness for the amended C3 at a concrete record. -/
theorem risk_tier_agreement_witness :
    tableRiskLevel gatedRepo = govRiskLevel gatedRepo :=
  risk_tier_agreement gatedRepo { gate_pass := Option.some false } false rfl rfl

/-- An active repository with CI enabled that reports no positive success
rate. -/
def zeroCiRepo : Repo :=
  { name := "ci-zero",
    ci := Option.some { has_ci := Option.some true, success_rate := Option.some 0 } }

/-- C4: with no CI-enabled repository reporting a positive success rate,
the null average success rate is coerced to `0` before `failure_rate` is
computed, so `calc_ci` reports `failure_rate = 100.0` instead of the null
the claim (and the dead `else None` branch of the source and its nullable
schema slot) require. -/
theorem ci_failure_rate_fabricated :
    (calc_ci [zeroCiRepo]).success_rate = 0 ∧
    (calc_ci [zeroCiRepo]).failure_rate = Option.some 100 ∧
    (calc_ci [zeroCiRepo]).failure_rate ≠ Option.none := by
  have h : (calc_ci [zeroCiRepo]).failure_rate = Option.some 100 := by
    norm_num [calc_ci, ciOf, zeroCiRepo, safe_avg, round1, rhe, List.filter_cons]
  refine ⟨?_, h, ?_⟩
  · norm_num [calc_ci, ciOf, zeroCiRepo, safe_avg, round1, rhe, List.filter_cons]
  · rw [h]
    exact Option.some_ne_none _

/-- C5: archived repositories contribute nothing to the DORA, flow, CI,
security and issues aggregators — each returns the same summary on the
full collection as on its non-archived subset — while governance counts
them in `total_repos` and `archived_repos`. -/
theorem archived_repos_invariant (repos : List Repo) :
    calc_dora (activeRepos repos) = calc_dora repos ∧
    calc_flow (activeRepos repos) = calc_flow repos ∧
    calc_ci (activeRepos repos) = calc_ci repos ∧
    (∀ prev, calc_security (activeRepos repos) prev = calc_security repos prev) ∧
    calc_issues (activeRepos repos) = calc_issues repos ∧
    (calc_governance repos).total_repos = repos.length ∧
    (calc_governance repos).archived_repos =
      (repos.filter (fun r => r.is_archived)).length := by
  refine ⟨?_, ?_, ?_, fun prev => ?_, ?_, rfl, rfl⟩ <;>
    simp only [calc_dora, calc_flow, calc_ci, calc_security, calc_issues,
      activeRepos, filter_active_idem]

/-- C7: the vulnerability trend is `none` exactly when no prior snapshot
exists, and otherwise compares the current total against the prior total:
strictly smaller is "Improving", strictly larger is "Worsening", equal is
"Stable". -/
lemma trend_eq (a p : Int) :
    (if a - p < 0 then Option.some "Improving"
     else if 0 < a - p then Option.some "Worsening"
     else Option.some "Stable") =
    Option.some (if a < p then "Improving"
     else if p < a then "Worsening" else "Stable") := by
  rcases lt_trichotomy a p with h | h | h
  · rw [if_pos (sub_neg.mpr h), if_pos h]
  · subst h
    simp
  · rw [if_neg (by simpa [sub_neg] using not_lt.mpr h.le),
      if_pos (sub_pos.mpr h), if_neg (not_lt.mpr h.le), if_pos h]

theorem vuln_trend_requires_prior_snapshot (repos : List Repo) (prev : Option Int) :
    (prev = Option.none → (calc_security repos prev).vuln_trend = Option.none) ∧
    (∀ p, prev = Option.some p →
      (calc_security repos prev).vuln_trend = Option.some
        (if (calc_security repos prev).total_vulns < p then "Improving"
         else if p < (calc_security repos prev).total_vulns then "Worsening"
         else "Stable")) := by
  constructor
  · rintro rfl
    simp [calc_security]
  · rintro p rfl
    simp only [calc_security]
    exact trend_eq _ p

/-- A record carrying five vulnerabilities. -/
def vulnRepo : Repo :=
  { name := "vulns",
    security := Option.some { critical := Option.some 2, high := Option.some 3 } }

/-- Witness for C7: with no prior snapshot the trend is null even though
the current total vulnerability count is nonzero. -/
theorem vuln_trend_requires_prior_snapshot_witness :
    (calc_security [vulnRepo] Option.none).vuln_trend = Option.none ∧
    (calc_security [vulnRepo] Option.none).total_vulns = 5 :=
  ⟨(vuln_trend_requires_prior_snapshot [vulnRepo] Option.none).1 rfl, by decide⟩

/-- The per-repository hypothesis of the claim, decidably: the record reports a
positive lead time in the Elite bucket, a positive MTTR in the Elite
bucket, and a CI-failure rate in the Elite bucket. -/
def repoDoraElite (r : Repo) : Bool :=
  match r.dora with
  | Option.none => false
  | Option.some d =>
    (match d.lead_time_hours with
     | Option.some v => decide (0 < v) && decide (lt_category v = "Elite")
     | Option.none => false) &&
    (match d.mttr_hours with
     | Option.some v => decide (0 < v) && decide (mttr_category v = "Elite")
     | Option.none => false) &&
    (match d.cfr with
     | Option.some (Option.some v) => decide (cfr_category v = "Elite")
     | _ => false)

/-- A repository whose lead-time, MTTR and CI-failure figures are all
Elite but which reports no releases, leaving the deployment-frequency
average at `0` and its category at "Low". -/
def eliteNoReleases : Repo :=
  { name := "elite-no-releases",
    dora := Option.some { lead_time_hours := Option.some 1,
                          mttr_hours := Option.some (1 / 2),
                          cfr := Option.some (Option.some 1) } }

/-- C6 counterexample: every active repository of the collection has
lead-time, MTTR and CI-failure categories "Elite", yet the overall DORA
category is "High", not "Elite" (the unmeasured deployment frequency
contributes weight 1, giving round1(13/4) = 3.2 < 3.5). -/
lemma df_category_cases (v : Rat) :
    df_category v = "Elite" ∨ df_category v = "High" ∨
    df_category v = "Medium" ∨ df_category v = "Low" := by
  unfold df_category
  split_ifs <;> simp

lemma catWeight_elite : catWeight "Elite" = 4 := rfl

lemma catWeight_high : catWeight "High" = 3 := rfl

lemma catWeight_medium : catWeight "Medium" = 2 := rfl

lemma catWeight_low : catWeight "Low" = 1 := rfl

/-- The overall DORA category, re-expressed through the four per-metric
category fields of the summary (definitional in `calc_dora`). -/
lemma calc_dora_overall_eq (repos : List Repo) :
    (calc_dora repos).overall =
      overall_category (round1
        ((catWeight (calc_dora repos).deployment_frequency.category +
          catWeight (calc_dora repos).lead_time.category +
          catWeight (calc_dora repos).mttr.category +
          catWeight (calc_dora repos).ci_failure_rate.category) / 4)) := rfl

lemma calc_dora_df_eq (repos : List Repo) :
    (calc_dora repos).deployment_frequency.category =
      df_category (calc_dora repos).deployment_frequency.value := rfl

theorem dora_overall_not_elite :
    (activeRepos [eliteNoReleases]).all repoDoraElite = true ∧
    (calc_dora [eliteNoReleases]).overall = "High" := by
  constructor
  · norm_num [activeRepos, eliteNoReleases, repoDoraElite, lt_category,
      mttr_category, cfr_category, List.filter_cons]
  · have hdf : (calc_dora [eliteNoReleases]).deployment_frequency.category = "Low" := by
      norm_num [calc_dora, eliteNoReleases, cfrOf, safe_avg, df_category,
        round1, rhe, List.filter_cons, List.filterMap_cons]
    have hlt : (calc_dora [eliteNoReleases]).lead_time.category = "Elite" := by
      norm_num [calc_dora, eliteNoReleases, cfrOf, safe_avg, lt_category,
        round1, rhe, List.filter_cons, List.filterMap_cons]
    have hmt : (calc_dora [eliteNoReleases]).mttr.category = "Elite" := by
      norm_num [calc_dora, eliteNoReleases, cfrOf, safe_avg, mttr_category,
        round1, rhe, List.filter_cons, List.filterMap_cons]
    have hcf : (calc_dora [eliteNoReleases]).ci_failure_rate.category = "Elite" := by
      norm_num [calc_dora, eliteNoReleases, cfrOf, safe_avg, cfr_category,
        round1, rhe, List.filter_cons, List.filterMap_cons]
    rw [calc_dora_overall_eq, hdf, hlt, hmt, hcf, catWeight_low, catWeight_elite]
    norm_num [round1, rhe, overall_category]

/-- C6 amended: when the aggregated lead-time, MTTR and CI-failure
categories are all "Elite" and the aggregated deployment-frequency
category is not "Low", the overall DORA category is "Elite". -/
theorem dora_overall_elite_when_df_not_low (repos : List Repo)
    (hlt : (calc_dora repos).lead_time.category = "Elite")
    (hmt : (calc_dora repos).mttr.category = "Elite")
    (hcf : (calc_dora repos).ci_failure_rate.category = "Elite")
    (hdf : (calc_dora repos).deployment_frequency.category ≠ "Low") :
    (calc_dora repos).overall = "Elite" := by
  rw [calc_dora_overall_eq, hlt, hmt, hcf, calc_dora_df_eq]
  rw [calc_dora_df_eq] at hdf
  rcases df_category_cases (calc_dora repos).deployment_frequency.value with
    h | h | h | h <;> rw [h]
  · rw [catWeight_elite]
    norm_num [round1, rhe, overall_category]
  · rw [catWeight_high, catWeight_elite]
    norm_num [round1, rhe, overall_category]
  · rw [catWeight_medium, catWeight_elite]
    norm_num [round1, rhe, overall_category]
  · exact absurd h hdf

/-- A repository whose four DORA figures are all in the Elite buckets. -/
def allEliteRepo : Repo :=
  { name := "all-elite",
    dora := Option.some { releases_per_month := Option.some 10,
                          lead_time_hours := Option.some 1,
                          mttr_hours := Option.some (1 / 2),
                          cfr := Option.some (Option.some 1) } }

/-- Witness for the amended C6 at a concrete collection. -/
theorem dora_overall_elite_when_df_not_low_witness :
    (calc_dora [allEliteRepo]).overall = "Elite" := by
  have hdf : (calc_dora [allEliteRepo]).deployment_frequency.category = "Elite" := by
    norm_num [calc_dora, allEliteRepo, cfrOf, safe_avg, round1, rhe,
      df_category, List.filter_cons, List.filterMap_cons]
  refine dora_overall_elite_when_df_not_low [allEliteRepo] ?_ ?_ ?_ ?_
  · norm_num [calc_dora, allEliteRepo, cfrOf, safe_avg, round1, rhe,
      lt_category, List.filter_cons, List.filterMap_cons]
  · norm_num [calc_dora, allEliteRepo, cfrOf, safe_avg, round1, rhe,
      mttr_category, List.filter_cons, List.filterMap_cons]
  · norm_num [calc_dora, allEliteRepo, cfrOf, safe_avg, round1, rhe,
      cfr_category, List.filter_cons, List.filterMap_cons]
  · rw [hdf]
    simp

/-- The record supplies `key` with a value accepted by the type list
`ts` (present and `isinstance` of one of the accepted types). -/
def TypedAt (kvs : List (String × PyVal)) (key : String) (ts : List PyType) : Prop :=
  ∃ v, lookupField kvs key = Option.some v ∧ ts.any (fun t => isinst v t) = true

/-- C10: a record that supplies the fifteen required top-level fields with
accepted types and none of the eight nested sections passes
`validate_raw_repo` with no errors — nested metric sections are optional
at the validation boundary. -/
theorem validate_raw_repo_sections_optional (kvs : List (String × PyVal))
    (hname : TypedAt kvs "name" [.tstr])
    (hfull : TypedAt kvs "full_name" [.tstr])
    (hurl : TypedAt kvs "url" [.tstr])
    (hdesc : TypedAt kvs "description" [.tstr, .tnone])
    (hlang : TypedAt kvs "language" [.tstr, .tnone])
    (harch : TypedAt kvs "is_archived" [.tbool])
    (hfork : TypedAt kvs "is_fork" [.tbool])
    (hpriv : TypedAt kvs "is_private" [.tbool])
    (hcre : TypedAt kvs "created_at" [.tstr])
    (hupd : TypedAt kvs "updated_at" [.tstr])
    (hpush : TypedAt kvs "pushed_at" [.tstr])
    (hstars : TypedAt kvs "stars" [.tint])
    (hforks : TypedAt kvs "forks" [.tint])
    (hhealth : TypedAt kvs "health_score" [.tint])
    (hcoll : TypedAt kvs "collected_at" [.tstr])
    (hdora : lookupField kvs "dora" = Option.none)
    (hflow : lookupField kvs "flow" = Option.none)
    (hpr : lookupField kvs "pr" = Option.none)
    (hiss : lookupField kvs "issues" = Option.none)
    (hci : lookupField kvs "ci" = Option.none)
    (hsec : lookupField kvs "security" = Option.none)
    (hcom : lookupField kvs "commits" = Option.none)
    (hrisk : lookupField kvs "risk" = Option.none) :
    validate_raw_repo (PyVal.dict kvs) = (true, []) := by
  obtain ⟨v1, e1, t1⟩ := hname
  obtain ⟨v2, e2, t2⟩ := hfull
  obtain ⟨v3, e3, t3⟩ := hurl
  obtain ⟨v4, e4, t4⟩ := hdesc
  obtain ⟨v5, e5, t5⟩ := hlang
  obtain ⟨v6, e6, t6⟩ := harch
  obtain ⟨v7, e7, t7⟩ := hfork
  obtain ⟨v8, e8, t8⟩ := hpriv
  obtain ⟨v9, e9, t9⟩ := hcre
  obtain ⟨v10, e10, t10⟩ := hupd
  obtain ⟨v11, e11, t11⟩ := hpush
  obtain ⟨v12, e12, t12⟩ := hstars
  obtain ⟨v13, e13, t13⟩ := hforks
  obtain ⟨v14, e14, t14⟩ := hhealth
  obtain ⟨v15, e15, t15⟩ := hcoll
  simp [validate_raw_repo, validate_dict_schema, RAW_REPO_REQUIRED_FIELDS,
    RAW_REPO_NESTED_SCHEMAS, ofList, validateFields, checkOne, sectionErrs,
    e1, t1, e2, t2, e3, t3, e4, t4, e5, t5, e6, t6, e7, t7, e8, t8, e9, t9,
    e10, t10, e11, t11, e12, t12, e13, t13, e14, t14, e15, t15,
    hdora, hflow, hpr, hiss, hci, hsec, hcom, hrisk]

/-- A minimal record: the fifteen required fields and nothing else. -/
def minimalRecord : List (String × PyVal) := [
  ("name", .str "repo-a"),
  ("full_name", .str "org/repo-a"),
  ("url", .str "https://example.invalid/repo-a"),
  ("description", .none),
  ("language", .none),
  ("is_archived", .bool false),
  ("is_fork", .bool false),
  ("is_private", .bool false),
  ("created_at", .str "2024-01-01T00:00:00Z"),
  ("updated_at", .str "2024-02-01T00:00:00Z"),
  ("pushed_at", .str "2024-02-01T00:00:00Z"),
  ("stars", .int 3),
  ("forks", .int 1),
  ("health_score", .int 70),
  ("collected_at", .str "2024-02-12T00:00:00Z")]

/-- Witness for C10 at a concrete minimal record. -/
theorem validate_raw_repo_sections_optional_witness :
    validate_raw_repo (PyVal.dict minimalRecord) = (true, []) :=
  validate_raw_repo_sections_optional minimalRecord
    ⟨_, rfl, rfl⟩ ⟨_, rfl, rfl⟩ ⟨_, rfl, rfl⟩ ⟨_, rfl, rfl⟩ ⟨_, rfl, rfl⟩
    ⟨_, rfl, rfl⟩ ⟨_, rfl, rfl⟩ ⟨_, rfl, rfl⟩ ⟨_, rfl, rfl⟩ ⟨_, rfl, rfl⟩
    ⟨_, rfl, rfl⟩ ⟨_, rfl, rfl⟩ ⟨_, rfl, rfl⟩ ⟨_, rfl, rfl⟩ ⟨_, rfl, rfl⟩
    rfl rfl rfl rfl rfl rfl rfl rfl

lemma isinst_jsonRT (v : PyVal) (t : PyType) (h : isinst v t = true) :
    isinst (jsonRT v) t = true := by
  cases v <;> cases t <;> simp_all [isinst, jsonRT]

lemma lookup_jsonRTKvs (kvs : List (String × PyVal)) (key : String) :
    lookupField (jsonRTKvs kvs) key = (lookupField kvs key).map jsonRT := by
  induction kvs with
  | nil => rfl
  | cons kv rest ih =>
    obtain ⟨k, v⟩ := kv
    by_cases h : k = key <;> simp [jsonRTKvs, lookupField, h, ih]

mutual
theorem checkOne_jsonRT (path key : String) (sch : Schema) (v : PyVal)
    (h : checkOne path key sch v = []) :
    checkOne path key sch (jsonRT v) = [] := by
  cases sch with
  | ty ts =>
    simp only [checkOne] at h ⊢
    rcases hq : ts.any (fun t => isinst v t) with _ | _
    · rw [hq] at h
      simp at h
    · obtain ⟨t, ht, hi⟩ := List.any_eq_true.mp hq
      have hrt := isinst_jsonRT v t hi
      rw [if_pos (List.any_eq_true.mpr ⟨t, ht, hrt⟩)]
  | listMarker =>
    simp only [checkOne] at h ⊢
    rcases hq : isinst v PyType.tlist with _ | _
    · rw [hq] at h
      simp at h
    · rw [if_pos (isinst_jsonRT v PyType.tlist hq)]
  | nested fields =>
    cases v with
    | dict kvs =>
      simp only [checkOne, jsonRT] at h ⊢
      exact validateFields_jsonRT _ _ _ h
    | none => simp [checkOne] at h
    | bool b => simp [checkOne] at h
    | int n => simp [checkOne] at h
    | float q => simp [checkOne] at h
    | str s => simp [checkOne] at h
    | list xs => simp [checkOne] at h
    | tuple xs => simp [checkOne] at h
theorem validateFields_jsonRT (path : String) (kvs : List (String × PyVal))
    (fl : FieldList) (h : validateFields path kvs fl = []) :
    validateFields path (jsonRTKvs kvs) fl = [] := by
  cases fl with
  | nil => rfl
  | fcons key sch rest =>
    simp only [validateFields] at h ⊢
    rw [List.append_eq_nil] at h ⊢
    obtain ⟨h1, h2⟩ := h
    refine ⟨?_, validateFields_jsonRT path kvs rest h2⟩
    rw [lookup_jsonRTKvs]
    cases hl : lookupField kvs key with
    | none =>
      rw [hl] at h1
      simp at h1
    | some v =>
      rw [hl] at h1
      exact checkOne_jsonRT path key sch v h1
end

lemma validate_dict_schema_jsonRT (v : PyVal) (fl : FieldList) (p : String)
    (h : (validate_dict_schema v fl p).2 = []) :
    (validate_dict_schema (jsonRT v) fl p).2 = [] := by
  cases v with
  | dict kvs =>
    simp only [validate_dict_schema, jsonRT] at h ⊢
    exact validateFields_jsonRT _ _ _ h
  | none => simp [validate_dict_schema] at h
  | bool b => simp [validate_dict_schema] at h
  | int n => simp [validate_dict_schema] at h
  | float q => simp [validate_dict_schema] at h
  | str s => simp [validate_dict_schema] at h
  | list xs => simp [validate_dict_schema] at h
  | tuple xs => simp [validate_dict_schema] at h

/-- C9: a record that passes `validate_raw_repo` still passes after being
serialized to JSON and parsed back — validation depends only on the
structure of the record (the round trip rewrites tuples to lists, which never
invalidates a passing record since no accepted type matches a tuple). -/
theorem validate_raw_repo_roundtrip (d : PyVal)
    (h : (validate_raw_repo d).1 = true) :
    (validate_raw_repo (jsonRT d)).1 = true := by
  cases d with
  | dict kvs =>
    simp only [validate_raw_repo, validate_dict_schema, jsonRT,
      List.isEmpty_iff, List.append_eq_nil, List.flatMap_eq_nil_iff] at h ⊢
    obtain ⟨h1, h2⟩ := h
    refine ⟨validateFields_jsonRT _ _ _ h1, ?_⟩
    intro sect hsect
    have hs := h2 sect hsect
    unfold sectionErrs at hs ⊢
    rw [lookup_jsonRTKvs]
    cases hl : lookupField kvs sect.1 with
    | none => rfl
    | some v =>
      rw [hl] at hs
      exact validate_dict_schema_jsonRT v sect.2 _ hs
  | none => simp [validate_raw_repo, validate_dict_schema] at h
  | bool b => simp [validate_raw_repo, validate_dict_schema] at h
  | int n => simp [validate_raw_repo, validate_dict_schema] at h
  | float q => simp [validate_raw_repo, validate_dict_schema] at h
  | str s => simp [validate_raw_repo, validate_dict_schema] at h
  | list xs => simp [validate_raw_repo, validate_dict_schema] at h
  | tuple xs => simp [validate_raw_repo, validate_dict_schema] at h

/-- A full record with nested sections, whose `commits.top` holds a tuple
inside a list (the JSON round trip rewrites that tuple to a list). -/
def fullRecord : PyVal := .dict (minimalRecord ++ [
  ("commits", .dict [
    ("count_30d", .int 5),
    ("authors", .int 2),
    ("top", .list [.tuple [.str "alice", .int 3]])]),
  ("risk", .dict [
    ("score", .int 20),
    ("level", .str "Low"),
    ("factors", .list [.str "Healthy repository"])])])

/-- Witness for C9: a concrete valid record remains valid after the JSON
round trip. -/
theorem validate_raw_repo_roundtrip_witness :
    (validate_raw_repo (jsonRT fullRecord)).1 = true :=
  validate_raw_repo_roundtrip fullRecord rfl

lemma within_append_left {l t : List Char} (s : List Char) (h : l <:+: t) :
    l <:+: s ++ t := by
  obtain ⟨u, w, hw⟩ := h
  exact ⟨s ++ u, w, by simp [← hw, List.append_assoc]⟩

lemma within_of_head {l t : List Char} (h : l <+: t) : l <:+: t := by
  obtain ⟨u, hu⟩ := h
  exact ⟨[], u, by simp [hu]⟩

lemma mem_pyJoin_within (sep : String) :
    ∀ (l : List String) (e : String), e ∈ l → e.data <:+: (pyJoin sep l).data := by
  intro l
  induction l with
  | nil => simp
  | cons a rest ih =>
    intro e he
    cases rest with
    | nil =>
      rw [List.mem_singleton] at he
      subst he
      exact ⟨[], [], by simp [pyJoin]⟩
    | cons b r =>
      rcases List.mem_cons.mp he with he | he
      · subst he
        refine ⟨[], (sep ++ pyJoin sep (b :: r)).data, ?_⟩
        simp [pyJoin, String.data_append, List.append_assoc]
      · have h := ih e he
        have : e.data <:+: (sep ++ pyJoin sep (b :: r)).data := by
          rw [String.data_append]
          exact within_append_left _ h
        rw [show pyJoin sep (a :: b :: r) = a ++ (sep ++ pyJoin sep (b :: r)) by
          rw [pyJoin, String.append_assoc]]
        rw [String.data_append]
        exact within_append_left _ this

lemma validity_iff_no_errors (data : PyVal) (schema : FieldList) (path : String) :
    (validate_dict_schema data schema path).1 = true ↔
      (validate_dict_schema data schema path).2 = [] := by
  cases data <;> simp [validate_dict_schema, List.isEmpty_iff]

lemma validateFields_append_hom (path : String) (kvs : List (String × PyVal))
    (l1 l2 : List (String × Schema)) :
    validateFields path kvs (ofList (l1 ++ l2)) =
      validateFields path kvs (ofList l1) ++ validateFields path kvs (ofList l2) := by
  induction l1 with
  | nil => simp [ofList, validateFields]
  | cons kv rest ih =>
    obtain ⟨k, s⟩ := kv
    simp [ofList, validateFields, ih, List.append_assoc]

lemma shape_of_suffix (path suffix : String) (h : [':', ' '] <:+: suffix.data) :
    path.data <+: (path ++ suffix).data ∧ [':', ' '] <:+: (path ++ suffix).data := by
  rw [String.data_append]
  exact ⟨List.prefix_append _ _, within_append_left _ h⟩

lemma nested_key_shape (path key tail : String) (h : [':', ' '] <+: tail.data) :
    path.data <+: (path ++ "." ++ key ++ tail).data ∧
      [':', ' '] <:+: (path ++ "." ++ key ++ tail).data := by
  have he : path ++ "." ++ key ++ tail = path ++ ("." ++ (key ++ tail)) := by
    rw [String.append_assoc, String.append_assoc]
  rw [he]
  refine shape_of_suffix path _ ?_
  rw [String.data_append, String.data_append]
  exact within_append_left _ (within_append_left _ (within_of_head h))

mutual
theorem checkOne_msg_shape (path key : String) (sch : Schema) (v : PyVal) :
    ∀ e ∈ checkOne path key sch v,
      path.data <+: e.data ∧ [':', ' '] <:+: e.data := by
  intro e he
  cases sch with
  | ty ts =>
    rw [checkOne] at he
    rcases hq : ts.any (fun t => isinst v t) with _ | _
    · rw [hq, if_neg (by simp)] at he
      rw [List.mem_singleton] at he
      subst he
      rw [show path ++ "." ++ key ++ ": expected " ++ pyJoin " or " (ts.map tyName)
            ++ ", got " ++ typeName v =
          path ++ "." ++ key ++ (": expected " ++ (pyJoin " or " (ts.map tyName)
            ++ (", got " ++ typeName v))) by
        simp [String.append_assoc]]
      refine nested_key_shape path key _ ?_
      rw [String.data_append]
      exact ⟨_, rfl⟩
    · rw [hq, if_pos rfl] at he
      simp at he
  | listMarker =>
    rw [checkOne] at he
    rcases hq : isinst v PyType.tlist with _ | _
    · rw [hq, if_neg (by simp)] at he
      rw [List.mem_singleton] at he
      subst he
      rw [show path ++ "." ++ key ++ ": expected list, got " ++ typeName v =
          path ++ "." ++ key ++ (": expected list, got " ++ typeName v) by
        simp [String.append_assoc]]
      refine nested_key_shape path key _ ?_
      rw [String.data_append]
      exact ⟨_, rfl⟩
    · rw [hq, if_pos rfl] at he
      simp at he
  | nested fields =>
    cases v with
    | dict kvs =>
      rw [checkOne] at he
      have h := validateFields_msg_shape (path ++ "." ++ key) kvs fields e he
      refine ⟨List.IsPrefix.trans ?_ h.1, h.2⟩
      rw [String.append_assoc, String.data_append]
      exact List.prefix_append _ _
    | none => exact expected_dict_shape path key _ he
    | bool b => exact expected_dict_shape path key _ he
    | int n => exact expected_dict_shape path key _ he
    | float q => exact expected_dict_shape path key _ he
    | str s => exact expected_dict_shape path key _ he
    | list xs => exact expected_dict_shape path key _ he
    | tuple xs => exact expected_dict_shape path key _ he
theorem expected_dict_shape (path key t : String) {e : String}
    (he : e ∈ [path ++ "." ++ key ++ ": expected dict, got " ++ t]) :
    path.data <+: e.data ∧ [':', ' '] <:+: e.data := by
  rw [List.mem_singleton] at he
  subst he
  rw [show path ++ "." ++ key ++ ": expected dict, got " ++ t =
      path ++ "." ++ key ++ (": expected dict, got " ++ t) by
    simp [String.append_assoc]]
  refine nested_key_shape path key _ ?_
  rw [String.data_append]
  exact ⟨_, rfl⟩
theorem validateFields_msg_shape (path : String) (kvs : List (String × PyVal))
    (fl : FieldList) :
    ∀ e ∈ validateFields path kvs fl,
      path.data <+: e.data ∧ [':', ' '] <:+: e.data := by
  intro e he
  cases fl with
  | nil => simp [validateFields] at he
  | fcons key sch rest =>
    rw [validateFields, List.mem_append] at he
    rcases he with he | he
    · cases hl : lookupField kvs key with
      | none =>
        rw [hl] at he
        rw [List.mem_singleton] at he
        subst he
        exact nested_key_shape path key ": missing required field" ⟨_, rfl⟩
      | some v =>
        rw [hl] at he
        exact checkOne_msg_shape path key sch v e he
    · exact validateFields_msg_shape path kvs rest e he
end

lemma root_nondict_shape (path t : String) {e : String}
    (he : e ∈ [path ++ ": expected dict, got " ++ t]) :
    path.data <+: e.data ∧ [':', ' '] <:+: e.data := by
  rw [List.mem_singleton] at he
  subst he
  rw [String.append_assoc]
  refine shape_of_suffix path _ ?_
  rw [String.data_append]
  exact within_of_head ⟨_, rfl⟩

lemma validate_dict_schema_msg_shape (data : PyVal) (schema : FieldList)
    (path : String) :
    ∀ e ∈ (validate_dict_schema data schema path).2,
      path.data <+: e.data ∧ [':', ' '] <:+: e.data := by
  intro e he
  cases data with
  | dict kvs => exact validateFields_msg_shape path kvs schema e he
  | none => exact root_nondict_shape path _ he
  | bool b => exact root_nondict_shape path _ he
  | int n => exact root_nondict_shape path _ he
  | float q => exact root_nondict_shape path _ he
  | str s => exact root_nondict_shape path _ he
  | list xs => exact root_nondict_shape path _ he
  | tuple xs => exact root_nondict_shape path _ he

lemma assert_raw_repo_spec (kvs : List (String × PyVal)) (label : String) :
    (assert_raw_repo (PyVal.dict kvs) label = Except.ok () ↔
      (validate_raw_repo (PyVal.dict kvs)).1 = true) ∧
    ((validate_raw_repo (PyVal.dict kvs)).1 = false →
      ∃ msg, assert_raw_repo (PyVal.dict kvs) label = Except.error msg ∧
        label.data <:+: msg.data ∧
        ∀ e ∈ (validate_raw_repo (PyVal.dict kvs)).2, e.data <:+: msg.data) := by
  rcases hv : (validate_raw_repo (PyVal.dict kvs)).1 with _ | _
  · constructor
    · rw [assert_raw_repo, hv]
      simp
    · intro _
      refine ⟨rawRepoFailMsg label (validate_raw_repo (PyVal.dict kvs)).2, ?_, ?_, ?_⟩
      · rw [assert_raw_repo, hv]
        simp
      · rw [rawRepoFailMsg]
        simp only [String.data_append, List.append_assoc]
        exact within_append_left _ (within_append_left _
          (within_of_head (List.prefix_append _ _)))
      · intro e he
        have h := mem_pyJoin_within "\n  " (validate_raw_repo (PyVal.dict kvs)).2 e he
        rw [rawRepoFailMsg]
        simp only [String.data_append, List.append_assoc]
        exact within_append_left _ (within_append_left _ (within_append_left _
          (within_append_left _ (within_append_left _ h))))
  · constructor
    · rw [assert_raw_repo, hv]
      simp
    · intro hc
      simp at hc

/-- C8: validation collects every violation without short-circuiting:
`validate_dict_schema` reports validity exactly when its error list is
empty; errors are collected field by field, so validating a concatenated
schema yields the concatenation of the error lists; every error message is
`<dotted.path>: <problem>` (it extends the entry path and contains a
`": "` separator); and `assert_raw_repo` returns normally exactly when the
record validates, otherwise raising a message that contains the label and
every collected error. -/
theorem validation_collects_and_reports :
    (∀ (data : PyVal) (schema : FieldList) (path : String),
      (validate_dict_schema data schema path).1 = true ↔
        (validate_dict_schema data schema path).2 = []) ∧
    (∀ (path : String) (kvs : List (String × PyVal))
        (l1 l2 : List (String × Schema)),
      validateFields path kvs (ofList (l1 ++ l2)) =
        validateFields path kvs (ofList l1) ++ validateFields path kvs (ofList l2)) ∧
    (∀ (data : PyVal) (schema : FieldList) (path : String),
      ∀ e ∈ (validate_dict_schema data schema path).2,
        path.data <+: e.data ∧ [':', ' '] <:+: e.data) ∧
    (∀ (kvs : List (String × PyVal)) (label : String),
      (assert_raw_repo (PyVal.dict kvs) label = Except.ok () ↔
        (validate_raw_repo (PyVal.dict kvs)).1 = true) ∧
      ((validate_raw_repo (PyVal.dict kvs)).1 = false →
        ∃ msg, assert_raw_repo (PyVal.dict kvs) label = Except.error msg ∧
          label.data <:+: msg.data ∧
          ∀ e ∈ (validate_raw_repo (PyVal.dict kvs)).2, e.data <:+: msg.data)) :=
  ⟨validity_iff_no_errors, validateFields_append_hom,
    validate_dict_schema_msg_shape, assert_raw_repo_spec⟩

/-- Witness for C8: on the empty record, `assert_raw_repo` raises a message
containing the repo label and, among others, the collected
`repo.name: missing required field` error. -/
theorem validation_collects_and_reports_witness :
    ∃ msg, assert_raw_repo (PyVal.dict []) "badrepo" = Except.error msg ∧
      ("badrepo").data <:+: msg.data ∧
      ("repo.name: missing required field").data <:+: msg.data := by
  obtain ⟨msg, h1, h2, h3⟩ :=
    (validation_collects_and_reports.2.2.2 [] "badrepo").2 rfl
  exact ⟨msg, h1, h2, h3 _ (by decide)⟩

end OrgMetrics
